import Mathlib

/-!
Shallow embedding of `src/python/bronze/validate_bronze_files.py`.

A spreadsheet cell is either null (`none`) or a value (`some s`); a loaded
sheet (`Frame`) is its raw column-name list together with its rows (each row a
list of cells aligned with the columns).  A discovered file (`XFile`) carries
its name, its stem (name without extension), its path string, and the outcome
of reading it: `Except.ok` a `Frame`, or `Except.error` with the exception's
description (modelling that `safe_read_excel` either returns a DataFrame or
raises).  `validate_year` is embedded as a pure function of the discovered
file list (file discovery and the environment lookup are I/O outside the
validation core); the searched directory is passed in as `base_dir`.
-/

deriving instance DecidableEq for Except

/-- A cell of a sheet: `none` models a pandas null/NaN cell. -/
abbrev Cell := Option String

/-- Python `str.lower()`: every character lowercased (the column names here are
ASCII, where `Char.toLower` agrees with Python). -/
def py_lower (s : String) : String := ⟨s.data.map Char.toLower⟩

/-- Python `str.strip()`: leading and trailing whitespace removed. -/
def py_strip (s : String) : String :=
  ⟨((s.data.dropWhile Char.isWhitespace).reverse.dropWhile Char.isWhitespace).reverse⟩

/-- Python `s.startswith(pre)`. -/
def py_startswith (s pre : String) : Bool := pre.data.isPrefixOf s.data

/-- A loaded sheet: raw (un-normalized) column names and the rows. -/
structure Frame where
  columns : List String
  rows : List (List Cell)
deriving Repr, DecidableEq

/-- A discovered `.xlsx` file: its base name, stem, path and load outcome. -/
structure XFile where
  name : String
  stem : String
  path : String
  load : Except String Frame

/-- The function `normalize_cols`: keep the original names but strip surrounding whitespace
(`str(c).strip()`). -/
def normalize_cols (cols : List String) : List String :=
  cols.map py_strip

/-- The alias family for a customer-id column (matched lowercased). -/
def clienteAliases : List String := ["id_cliente", "cliente_id", "customer_id"]

/-- The alias family for a date column (matched lowercased). -/
def dataAliases : List String := ["data", "dt", "data_compra", "purchase_date", "order_date"]

/-- The alias family for an order/transaction-id column (matched lowercased). -/
def pedidoAliases : List String :=
  ["id_pedido", "pedido_id", "order_id", "id_transacao", "transacao_id", "transaction_id"]

/-- The function `pick_candidate_keys`: the first column whose lowercasing is a customer-id
alias, the first whose lowercasing is a date alias, and the first whose
lowercasing is an order/transaction-id alias; an order-id key from the third,
a customer+date key from the first two together.  The returned association
list keeps Python's dict insertion order. -/
def pick_candidate_keys (columns : List String) : List (String × List String) :=
  let id_cliente := columns.find? (fun c => clienteAliases.contains (py_lower c))
  let dt := columns.find? (fun c => dataAliases.contains (py_lower c))
  let id_pedido := columns.find? (fun c => pedidoAliases.contains (py_lower c))
  (match id_pedido with
   | some p => [("dup_order_id", [p])]
   | none => []) ++
  (match id_cliente, dt with
   | some a, some b => [("dup_cliente_data", [a, b])]
   | _, _ => [])

/-- The per-file profile produced by `basic_profile`. -/
structure Profile where
  rows : Nat
  cols : Nat
  total_nulls : Nat
  top_nulls : List (String × Nat)
deriving Repr, DecidableEq

/-- Null count of column `i` of the frame (`df.isna().sum()` for one column). -/
def nullCount (df : Frame) (i : Nat) : Nat :=
  df.rows.countP (fun r => (r.getD i (some "")).isNone)

/-- The function `basic_profile`: shape, per-column null counts, total nulls, and the ten
columns with most nulls (stable descending sort, zero-null columns dropped). -/
def basic_profile (df : Frame) : Profile :=
  let null_counts :=
    (List.range df.columns.length).map (fun i => (df.columns.getD i "", nullCount df i))
  { rows := df.rows.length
    cols := df.columns.length
    total_nulls := (null_counts.map Prod.snd).sum
    top_nulls :=
      (((null_counts.insertionSort (fun a b => b.2 ≤ a.2)).take 10).filter
        (fun kv => decide (0 < kv.2))) }

/-- Projection of a row onto the columns named in `kcols`, each looked up in
the frame's raw column list (`df[kcols]` row values, used by
`df.duplicated(subset=kcols)`). -/
def projectRow (rawCols : List String) (kcols : List String) (row : List Cell) :
    List (Option Cell) :=
  kcols.map (fun k => (rawCols.indexOf? k).bind (fun i => row.get? i))

/-- Embedding of `df.duplicated(...).sum()`: the number of rows equal, under `key`, to some
earlier row (the first occurrence is not marked, every later one is). -/
def dup_count {κ : Type} [DecidableEq κ] (key : List Cell → κ) (rows : List (List Cell)) : Nat :=
  (List.range rows.length).countP
    (fun i => decide (key (rows.getD i []) ∈ (rows.take i).map key))

/-- A schema-mismatch record. -/
structure SchemaMismatch where
  file : String
  missing_cols : List String
  extra_cols : List String
  order_diff_only : Bool
deriving Repr, DecidableEq

/-- Reference columns absent from the file (`[c for c in ref_cols if c not in cols]`). -/
def missing_of (ref_cols cols : List String) : List String :=
  ref_cols.filter (fun c => decide (c ∉ cols))

/-- File columns absent from the reference (`[c for c in cols if c not in ref_cols]`). -/
def extra_of (ref_cols cols : List String) : List String :=
  cols.filter (fun c => decide (c ∉ ref_cols))

/-- Embedding of `(sorted(cols) == sorted(ref_cols)) and (cols != ref_cols)`: equality of the
sorted lists is exactly equality of the multisets of names, i.e. the lists are
permutations of each other. -/
def order_diff_of (ref_cols cols : List String) : Bool :=
  cols.isPerm ref_cols && decide (cols ≠ ref_cols)

/-- One per-file read error (`{"file": f.name, "error": repr(e)}`). -/
structure ReadError where
  file : String
  error : String
deriving Repr, DecidableEq

/-- One entry of the `files` list of the batch result. -/
structure FileResult where
  file : String
  path : String
  profile : Profile
  duplicates : List (String × Nat)
  schema_matches_reference : Bool
deriving Repr, DecidableEq

/-- The duplicate-count mapping of one file: the full-row count first, then one
entry per candidate key whose columns are all present in the file's raw column
list (`all(c in df.columns for c in kcols)`). -/
def dup_info_of (keys : List (String × List String)) (df : Frame) : List (String × Nat) :=
  ("dup_full_row_count", dup_count (fun r => r) df.rows) ::
    keys.filterMap (fun kc =>
      if kc.2.all (fun c => df.columns.contains c) then
        some (kc.1, dup_count (projectRow df.columns kc.2) df.rows)
      else none)

/-- The body of the `for f in files:` loop of `validate_year`: load the file
(a read failure becomes a `ReadError`), compare its normalized columns to the
reference's, profile it, and count duplicates. -/
def process_file (ref_cols : List String) (keys : List (String × List String))
    (f : XFile) : Except ReadError (FileResult × Option SchemaMismatch) :=
  match f.load with
  | .error e => .error { file := f.name, error := e }
  | .ok df =>
    let cols := normalize_cols df.columns
    let mismatch : Option SchemaMismatch :=
      if cols = ref_cols then none
      else some { file := f.name
                  missing_cols := missing_of ref_cols cols
                  extra_cols := extra_of ref_cols cols
                  order_diff_only := order_diff_of ref_cols cols }
    .ok ({ file := f.name
           path := f.path
           profile := basic_profile df
           duplicates := dup_info_of keys df
           schema_matches_reference := decide (cols = ref_cols) }, mismatch)

/-- The `files` list: one entry per file whose processing succeeded, in order. -/
def resultsOf (outs : List (Except ReadError (FileResult × Option SchemaMismatch))) :
    List FileResult :=
  outs.filterMap (fun o => match o with | .ok x => some x.1 | .error _ => none)

/-- The `schema_mismatches` list: the mismatch records of processed files, in order. -/
def mismatchesOf (outs : List (Except ReadError (FileResult × Option SchemaMismatch))) :
    List SchemaMismatch :=
  outs.filterMap (fun o => match o with | .ok x => x.2 | .error _ => none)

/-- The `read_errors` list: the errors of files that failed to load, in order. -/
def errorsOf (outs : List (Except ReadError (FileResult × Option SchemaMismatch))) :
    List ReadError :=
  outs.filterMap (fun o => match o with | .error e => some e | .ok _ => none)

/-- The strict-naming check of one file: `f.stem.startswith(f"{year}-") and
len(f.stem) == 7`. -/
def goodName (year : Nat) (f : XFile) : Bool :=
  py_startswith f.stem (toString year ++ "-") && f.stem.length == 7

/-- The `name_issues` list: when strict naming is on, the names of the files
whose stem violates the `YYYY-MM` pattern, in order; otherwise empty. -/
def name_issues_of (year : Nat) (strict : Bool) (files : List XFile) : List String :=
  if strict then (files.filter (fun f => !goodName year f)).map XFile.name else []

/-- Status derivation: `error` if any file failed to load, else `warning` on any schema mismatch
or name issue, else `ok`. -/
def status_of (read_errors : List ReadError) (schema_mismatches : List SchemaMismatch)
    (name_issues : List String) : String :=
  if read_errors ≠ [] then "error"
  else if schema_mismatches ≠ [] ∨ name_issues ≠ [] then "warning"
  else "ok"

/-- The batch-level payload of a non-empty batch whose reference file loaded. -/
structure BatchReport where
  year : Nat
  status : String
  base_dir : String
  reference_file : String
  reference_columns : List String
  strict_name_pattern : Bool
  name_issues : List String
  schema_mismatches : List SchemaMismatch
  read_errors : List ReadError
  files : List FileResult
deriving Repr, DecidableEq

/-- The result of `validate_year`: either the early `no_files` payload, which
carries only the year, the status and a message, or the full batch payload. -/
inductive Report where
  | noFiles (year : Nat) (status : String) (message : String)
  | full (b : BatchReport)
deriving Repr, DecidableEq

/-- The batch payload built from a file list whose head loaded as `ref_df`. -/
def mkBatch (year : Nat) (base_dir : String) (files : List XFile) (strict : Bool)
    (ref_df : Frame) : BatchReport :=
  let ref_cols := normalize_cols ref_df.columns
  let keys := pick_candidate_keys ref_cols
  let outs := files.map (process_file ref_cols keys)
  let nameIssues := name_issues_of year strict files
  { year := year
    status := status_of (errorsOf outs) (mismatchesOf outs) nameIssues
    base_dir := base_dir
    reference_file := (match files with | f :: _ => f.name | [] => "")
    reference_columns := ref_cols
    strict_name_pattern := strict
    name_issues := nameIssues
    schema_mismatches := mismatchesOf outs
    read_errors := errorsOf outs
    files := resultsOf outs }

/-- The function `validate_year`: on an empty discovery result, the `no_files` payload with
a message naming the searched directory; otherwise the first file is the
reference — if it fails to load the exception propagates (`Except.error`),
else every file is processed and the batch payload assembled. -/
def validate_year (year : Nat) (base_dir : String) (files : List XFile)
    (strict_name_pattern : Bool) : Except String Report :=
  match files with
  | [] => .ok (.noFiles year "no_files" ("Nenhum .xlsx encontrado em " ++ base_dir))
  | f0 :: _ =>
    match f0.load with
    | .error e => .error e
    | .ok ref_df => .ok (.full (mkBatch year base_dir files strict_name_pattern ref_df))

/-- Whether a file's load succeeded. -/
def loadsOk (f : XFile) : Bool :=
  match f.load with
  | .ok _ => true
  | .error _ => false

/-- The batch payload of a `validate_year` outcome, when there is one. -/
def batchOf (r : Except String Report) : Option BatchReport :=
  match r with
  | .ok (.full b) => some b
  | _ => none

/-! ## Basic lemmas about the embedding -/

theorem validate_year_cons (year : Nat) (base : String) (f0 : XFile) (rest : List XFile)
    (strict : Bool) (ref_df : Frame) (h0 : f0.load = .ok ref_df) :
    validate_year year base (f0 :: rest) strict =
      .ok (.full (mkBatch year base (f0 :: rest) strict ref_df)) := by
  simp [validate_year, h0]

theorem errorsOf_map (rc : List String) (ks : List (String × List String))
    (files : List XFile) :
    errorsOf (files.map (process_file rc ks)) =
      files.filterMap (fun f =>
        match f.load with
        | .error e => some { file := f.name, error := e }
        | .ok _ => none) := by
  rw [errorsOf, List.filterMap_map]
  congr 1
  funext f
  cases hf : f.load <;> simp [process_file, hf, Function.comp]

theorem mismatchesOf_map (rc : List String) (ks : List (String × List String))
    (files : List XFile) :
    mismatchesOf (files.map (process_file rc ks)) =
      files.filterMap (fun f =>
        match f.load with
        | .error _ => none
        | .ok df =>
          if normalize_cols df.columns = rc then none
          else some { file := f.name
                      missing_cols := missing_of rc (normalize_cols df.columns)
                      extra_cols := extra_of rc (normalize_cols df.columns)
                      order_diff_only := order_diff_of rc (normalize_cols df.columns) }) := by
  rw [mismatchesOf, List.filterMap_map]
  congr 1
  funext f
  cases hf : f.load with
  | error e => simp [process_file, hf, Function.comp]
  | ok df =>
    by_cases hc : normalize_cols df.columns = rc <;>
      simp [process_file, hf, Function.comp, hc]

theorem resultsOf_map (rc : List String) (ks : List (String × List String))
    (files : List XFile) :
    resultsOf (files.map (process_file rc ks)) =
      files.filterMap (fun f =>
        match f.load with
        | .error _ => none
        | .ok df =>
          some { file := f.name
                 path := f.path
                 profile := basic_profile df
                 duplicates := dup_info_of ks df
                 schema_matches_reference := decide (normalize_cols df.columns = rc) }) := by
  rw [resultsOf, List.filterMap_map]
  congr 1
  funext f
  cases hf : f.load <;> simp [process_file, hf, Function.comp]

theorem errorsOf_eq_nil_iff (rc : List String) (ks : List (String × List String))
    (files : List XFile) :
    errorsOf (files.map (process_file rc ks)) = [] ↔
      ∀ f ∈ files, ∃ df, f.load = Except.ok df := by
  rw [errorsOf_map, List.filterMap_eq_nil_iff]
  refine forall_congr' fun f => forall_congr' fun _ => ?_
  cases hf : f.load <;> simp [hf]

theorem mismatchesOf_eq_nil_iff (rc : List String) (ks : List (String × List String))
    (files : List XFile) :
    mismatchesOf (files.map (process_file rc ks)) = [] ↔
      ∀ f ∈ files, ∀ df, f.load = Except.ok df → normalize_cols df.columns = rc := by
  rw [mismatchesOf_map, List.filterMap_eq_nil_iff]
  refine forall_congr' fun f => forall_congr' fun _ => ?_
  cases hf : f.load with
  | error e => simp [hf]
  | ok df =>
    by_cases hc : normalize_cols df.columns = rc <;> simp [hf, hc]

theorem name_issues_eq_nil_iff (year : Nat) (strict : Bool) (files : List XFile) :
    name_issues_of year strict files = [] ↔
      (strict = true → ∀ f ∈ files, goodName year f = true) := by
  cases strict with
  | false => simp [name_issues_of]
  | true =>
    simp only [name_issues_of, if_true, List.map_eq_nil_iff, List.filter_eq_nil_iff,
      forall_const, true_implies]
    constructor
    · intro h f hf
      have := h f hf
      simpa using this
    · intro h f hf
      simp [h f hf]

theorem not_exists_error_iff (files : List XFile) :
    (¬ ∃ f ∈ files, ∃ e, f.load = Except.error e) ↔
      ∀ f ∈ files, ∃ df, f.load = Except.ok df := by
  push_neg
  refine forall_congr' fun f => forall_congr' fun _ => ?_
  cases hf : f.load <;> simp [hf]

theorem not_exists_mismatch_iff (files : List XFile) (rc : List String) :
    (¬ ∃ f ∈ files, ∃ df, f.load = Except.ok df ∧ normalize_cols df.columns ≠ rc) ↔
      ∀ f ∈ files, ∀ df, f.load = Except.ok df → normalize_cols df.columns = rc := by
  push_neg
  rfl

theorem name_issues_ne_nil_iff (year : Nat) (strict : Bool) (files : List XFile) :
    name_issues_of year strict files ≠ [] ↔
      strict = true ∧ ∃ f ∈ files, goodName year f = false := by
  rw [Ne, name_issues_eq_nil_iff]
  cases strict with
  | false => simp
  | true =>
    simp only [forall_const, true_and, not_forall]
    constructor
    · rintro ⟨f, hf, hg⟩
      exact ⟨f, hf, by simpa using hg⟩
    · rintro ⟨f, hf, hg⟩
      exact ⟨f, hf, by simp [hg]⟩

theorem mkBatch_status (year : Nat) (base : String) (files : List XFile) (strict : Bool)
    (ref_df : Frame) :
    (mkBatch year base files strict ref_df).status =
      status_of
        (errorsOf (files.map (process_file (normalize_cols ref_df.columns)
          (pick_candidate_keys (normalize_cols ref_df.columns)))))
        (mismatchesOf (files.map (process_file (normalize_cols ref_df.columns)
          (pick_candidate_keys (normalize_cols ref_df.columns)))))
        (name_issues_of year strict files) := rfl

/-- C1: for a non-empty batch whose reference file loads, the result's status
is `error` exactly when some file failed to load; otherwise `warning` exactly
when some loaded file's normalized columns differ from the reference's or
strict naming is on and some file violates the name pattern; otherwise `ok`. -/
theorem validate_year_status_priority
    (year : Nat) (base : String) (f0 : XFile) (rest : List XFile) (strict : Bool)
    (ref_df : Frame) (b : BatchReport)
    (h0 : f0.load = Except.ok ref_df)
    (h : validate_year year base (f0 :: rest) strict = .ok (.full b)) :
    (b.status = "error" ↔ ∃ f ∈ f0 :: rest, ∃ e, f.load = Except.error e) ∧
    (b.status = "warning" ↔
      (¬ ∃ f ∈ f0 :: rest, ∃ e, f.load = Except.error e) ∧
      ((∃ f ∈ f0 :: rest, ∃ df, f.load = Except.ok df ∧
          normalize_cols df.columns ≠ normalize_cols ref_df.columns) ∨
       (strict = true ∧ ∃ f ∈ f0 :: rest, goodName year f = false))) ∧
    (b.status = "ok" ↔
      (¬ ∃ f ∈ f0 :: rest, ∃ e, f.load = Except.error e) ∧
      (¬ ∃ f ∈ f0 :: rest, ∃ df, f.load = Except.ok df ∧
          normalize_cols df.columns ≠ normalize_cols ref_df.columns) ∧
      ¬(strict = true ∧ ∃ f ∈ f0 :: rest, goodName year f = false)) := by
  rw [validate_year_cons year base f0 rest strict ref_df h0] at h
  simp only [Except.ok.injEq, Report.full.injEq] at h
  subst h
  rw [mkBatch_status]
  set files := f0 :: rest with hfiles
  set rc := normalize_cols ref_df.columns with hrc
  set ks := pick_candidate_keys rc with hks
  set E := errorsOf (files.map (process_file rc ks)) with hE
  set M := mismatchesOf (files.map (process_file rc ks)) with hM
  set N := name_issues_of year strict files with hN
  have herr : (∃ f ∈ files, ∃ e, f.load = Except.error e) ↔ ¬(E = []) := by
    rw [hE, errorsOf_eq_nil_iff, ← not_exists_error_iff]
    exact not_not.symm
  have hmm : (∃ f ∈ files, ∃ df, f.load = Except.ok df ∧ normalize_cols df.columns ≠ rc) ↔
      ¬(M = []) := by
    rw [hM, mismatchesOf_eq_nil_iff, ← not_exists_mismatch_iff]
    exact not_not.symm
  have hnm : (strict = true ∧ ∃ f ∈ files, goodName year f = false) ↔ ¬(N = []) := by
    rw [hN, ← name_issues_ne_nil_iff]
  rw [herr, hmm, hnm]
  by_cases he : E = [] <;> by_cases hm : M = [] <;> by_cases hn : N = [] <;>
    simp [status_of, he, hm, hn]

/-! ## Concrete fixtures used by the closed witnesses -/

/-- A well-formed reference sheet: three columns, three rows, one full-row
duplicate and two repeats of the order id `1`. -/
def refFrame : Frame :=
  { columns := ["order_id", "cliente_id", "data"]
    rows := [[some "1", some "a", some "d1"],
             [some "1", some "b", some "d2"],
             [some "1", some "b", some "d2"]] }

/-- The reference file of the witness batches. -/
def refXFile : XFile :=
  { name := "2023-01.xlsx", stem := "2023-01", path := "p1", load := .ok refFrame }

/-- A file whose load raises, with a name violating the `YYYY-MM` pattern. -/
def badXFile : XFile :=
  { name := "weird.xlsx", stem := "weird", path := "p2", load := .error "boom" }

/-- A file with the reference's columns in a different order. -/
def permFrame : Frame :=
  { columns := ["cliente_id", "order_id", "data"], rows := [] }

/-- The file carrying `permFrame`. -/
def permXFile : XFile :=
  { name := "2023-02.xlsx", stem := "2023-02", path := "p3", load := .ok permFrame }

/-- C1 witness: on a batch with one unreadable file the status is `error`. -/
theorem validate_year_status_priority_witness :
    (mkBatch 2023 "base" [refXFile, badXFile] false refFrame).status = "error" := by
  have h := validate_year_status_priority 2023 "base" refXFile [badXFile] false refFrame
    (mkBatch 2023 "base" [refXFile, badXFile] false refFrame) rfl rfl
  exact h.1.mpr ⟨badXFile, by simp, "boom", rfl⟩

theorem mkBatch_files (year : Nat) (base : String) (files : List XFile) (strict : Bool)
    (ref_df : Frame) :
    (mkBatch year base files strict ref_df).files =
      resultsOf (files.map (process_file (normalize_cols ref_df.columns)
        (pick_candidate_keys (normalize_cols ref_df.columns)))) := rfl

theorem mkBatch_read_errors (year : Nat) (base : String) (files : List XFile) (strict : Bool)
    (ref_df : Frame) :
    (mkBatch year base files strict ref_df).read_errors =
      errorsOf (files.map (process_file (normalize_cols ref_df.columns)
        (pick_candidate_keys (normalize_cols ref_df.columns)))) := rfl

theorem mkBatch_schema_mismatches (year : Nat) (base : String) (files : List XFile)
    (strict : Bool) (ref_df : Frame) :
    (mkBatch year base files strict ref_df).schema_mismatches =
      mismatchesOf (files.map (process_file (normalize_cols ref_df.columns)
        (pick_candidate_keys (normalize_cols ref_df.columns)))) := rfl

theorem mkBatch_name_issues (year : Nat) (base : String) (files : List XFile) (strict : Bool)
    (ref_df : Frame) :
    (mkBatch year base files strict ref_df).name_issues =
      name_issues_of year strict files := rfl

/-- C2: in a batch whose reference loads, every discovered file lands in
exactly one of the two lists — `files` has one entry per successful load,
`read_errors` one entry (file name and error text) per failed load, their
lengths sum to the number of discovered files, and a failing file does not
remove any later file from the result. -/
theorem validate_year_partition
    (year : Nat) (base : String) (f0 : XFile) (rest : List XFile) (strict : Bool)
    (ref_df : Frame) (b : BatchReport)
    (h0 : f0.load = Except.ok ref_df)
    (h : validate_year year base (f0 :: rest) strict = .ok (.full b)) :
    b.files.length = (f0 :: rest).countP loadsOk ∧
    b.read_errors.length = (f0 :: rest).countP (fun f => !loadsOk f) ∧
    b.files.length + b.read_errors.length = (f0 :: rest).length ∧
    b.read_errors = (f0 :: rest).filterMap (fun f =>
      match f.load with
      | .error e => some { file := f.name, error := e }
      | .ok _ => none) ∧
    (∀ f ∈ f0 :: rest, ∀ df, f.load = Except.ok df → ∃ fr ∈ b.files, fr.file = f.name) := by
  rw [validate_year_cons year base f0 rest strict ref_df h0] at h
  simp only [Except.ok.injEq, Report.full.injEq] at h
  subst h
  rw [mkBatch_files, mkBatch_read_errors, resultsOf_map, errorsOf_map]
  set files := f0 :: rest with hfiles
  have hlen1 : (files.filterMap (fun f =>
      match f.load with
      | .error _ => none
      | .ok df => some { file := f.name
                         path := f.path
                         profile := basic_profile df
                         duplicates := dup_info_of (pick_candidate_keys
                           (normalize_cols ref_df.columns)) df
                         schema_matches_reference :=
                           decide (normalize_cols df.columns =
                             normalize_cols ref_df.columns) : FileResult })).length =
      files.countP loadsOk := by
    rw [List.length_filterMap_eq_countP]
    refine List.countP_congr fun f _ => ?_
    cases hf : f.load <;> simp [hf, loadsOk]
  have hlen2 : (files.filterMap (fun f =>
      match f.load with
      | .error e => some { file := f.name, error := e : ReadError }
      | .ok _ => none)).length = files.countP (fun f => !loadsOk f) := by
    rw [List.length_filterMap_eq_countP]
    refine List.countP_congr fun f _ => ?_
    cases hf : f.load <;> simp [hf, loadsOk]
  refine ⟨hlen1, hlen2, ?_, rfl, ?_⟩
  · rw [hlen1, hlen2, List.length_eq_countP_add_countP loadsOk files]
    congr 1
    refine List.countP_congr fun f _ => ?_
    cases hf : f.load <;> simp [hf, loadsOk]
  · intro f hf df hdf
    refine ⟨{ file := f.name
              path := f.path
              profile := basic_profile df
              duplicates := dup_info_of (pick_candidate_keys
                (normalize_cols ref_df.columns)) df
              schema_matches_reference :=
                decide (normalize_cols df.columns = normalize_cols ref_df.columns) },
            List.mem_filterMap.mpr ⟨f, hf, by simp [hdf]⟩, rfl⟩

/-- C2 witness: the two-file batch with one unreadable file splits one-and-one. -/
theorem validate_year_partition_witness :
    (mkBatch 2023 "base" [refXFile, badXFile] false refFrame).files.length = 1 ∧
    (mkBatch 2023 "base" [refXFile, badXFile] false refFrame).read_errors =
      [{ file := "weird.xlsx", error := "boom" }] := by
  have h := validate_year_partition 2023 "base" refXFile [badXFile] false refFrame
    (mkBatch 2023 "base" [refXFile, badXFile] false refFrame) rfl rfl
  exact ⟨h.1.trans (by decide), h.2.2.2.1.trans (by decide)⟩

theorem find?_alias_isSome (al : List String) (columns : List String) :
    (columns.find? (fun c => al.contains (py_lower c))).isSome ↔
      ∃ c ∈ columns, py_lower c ∈ al := by
  rw [List.find?_isSome]
  simp

theorem find?_alias_some (al : List String) (columns : List String) (c : String)
    (h : columns.find? (fun x => al.contains (py_lower x)) = some c) :
    c ∈ columns ∧ py_lower c ∈ al :=
  ⟨List.mem_of_find?_eq_some h, by simpa using List.find?_some h⟩

theorem pick_lookup_order (columns : List String) :
    (pick_candidate_keys columns).lookup "dup_order_id" =
      (columns.find? (fun c => pedidoAliases.contains (py_lower c))).map (fun p => [p]) := by
  unfold pick_candidate_keys
  rcases hp : columns.find? (fun c => pedidoAliases.contains (py_lower c)) with _ | p <;>
    rcases hc : columns.find? (fun c => clienteAliases.contains (py_lower c)) with _ | a <;>
    rcases hd : columns.find? (fun c => dataAliases.contains (py_lower c)) with _ | d <;>
    simp [List.lookup]

theorem pick_lookup_cliente_data (columns : List String) :
    (pick_candidate_keys columns).lookup "dup_cliente_data" =
      (match columns.find? (fun c => clienteAliases.contains (py_lower c)),
             columns.find? (fun c => dataAliases.contains (py_lower c)) with
       | some a, some b => some [a, b]
       | _, _ => none) := by
  unfold pick_candidate_keys
  rcases hp : columns.find? (fun c => pedidoAliases.contains (py_lower c)) with _ | p <;>
    rcases hc : columns.find? (fun c => clienteAliases.contains (py_lower c)) with _ | a <;>
    rcases hd : columns.find? (fun c => dataAliases.contains (py_lower c)) with _ | d <;>
    simp [List.lookup]

/-- C3: candidate-key inference is a pure function of the column list; the
order-id key exists iff some column lowercases to an order/transaction alias
and consists of exactly that one column; the customer+date key exists iff a
customer-id alias and a date alias both occur and lists the customer column
then the date column; at most two keys exist; with no alias match at all the
mapping is empty. -/
theorem pick_candidate_keys_spec (columns : List String) :
    (((pick_candidate_keys columns).lookup "dup_order_id").isSome ↔
        ∃ c ∈ columns, py_lower c ∈ pedidoAliases) ∧
    (∀ l, (pick_candidate_keys columns).lookup "dup_order_id" = some l →
        ∃ p, l = [p] ∧ p ∈ columns ∧ py_lower p ∈ pedidoAliases) ∧
    (((pick_candidate_keys columns).lookup "dup_cliente_data").isSome ↔
        ((∃ c ∈ columns, py_lower c ∈ clienteAliases) ∧
         (∃ c ∈ columns, py_lower c ∈ dataAliases))) ∧
    (∀ l, (pick_candidate_keys columns).lookup "dup_cliente_data" = some l →
        ∃ ic d, l = [ic, d] ∧ ic ∈ columns ∧ py_lower ic ∈ clienteAliases ∧
          d ∈ columns ∧ py_lower d ∈ dataAliases) ∧
    (pick_candidate_keys columns).length ≤ 2 ∧
    ((¬ ∃ c ∈ columns, py_lower c ∈ pedidoAliases) →
     (¬ ∃ c ∈ columns, py_lower c ∈ clienteAliases) →
       pick_candidate_keys columns = []) := by
  refine ⟨?_, ?_, ?_, ?_, ?_, ?_⟩
  · rw [pick_lookup_order, ← find?_alias_isSome pedidoAliases columns]
    rcases columns.find? (fun c => pedidoAliases.contains (py_lower c)) with _ | p <;> simp
  · intro l hl
    rw [pick_lookup_order] at hl
    rcases hp : columns.find? (fun c => pedidoAliases.contains (py_lower c)) with _ | p
    · rw [hp] at hl; simp at hl
    · rw [hp] at hl
      obtain ⟨hmem, hal⟩ := find?_alias_some _ _ _ hp
      exact ⟨p, by simpa using hl.symm, hmem, hal⟩
  · rw [pick_lookup_cliente_data]
    rcases hc : columns.find? (fun c => clienteAliases.contains (py_lower c)) with _ | a <;>
      rcases hd : columns.find? (fun c => dataAliases.contains (py_lower c)) with _ | d
    · constructor
      · intro hs; simp at hs
      · rintro ⟨⟨c, hmem, hal⟩, -⟩
        have := List.find?_eq_none.mp hc c hmem
        simp [hal] at this
    · constructor
      · intro hs; simp at hs
      · rintro ⟨⟨c, hmem, hal⟩, -⟩
        have := List.find?_eq_none.mp hc c hmem
        simp [hal] at this
    · constructor
      · intro hs; simp at hs
      · rintro ⟨-, ⟨c, hmem, hal⟩⟩
        have := List.find?_eq_none.mp hd c hmem
        simp [hal] at this
    · constructor
      · intro _
        obtain ⟨ha1, ha2⟩ := find?_alias_some _ _ _ hc
        obtain ⟨hd1, hd2⟩ := find?_alias_some _ _ _ hd
        exact ⟨⟨a, ha1, ha2⟩, ⟨d, hd1, hd2⟩⟩
      · intro _; simp
  · intro l hl
    rw [pick_lookup_cliente_data] at hl
    rcases hc : columns.find? (fun c => clienteAliases.contains (py_lower c)) with _ | a <;>
      rcases hd : columns.find? (fun c => dataAliases.contains (py_lower c)) with _ | d <;>
      rw [hc, hd] at hl <;> simp at hl
    obtain ⟨ha1, ha2⟩ := find?_alias_some _ _ _ hc
    obtain ⟨hd1, hd2⟩ := find?_alias_some _ _ _ hd
    exact ⟨a, d, hl.symm, ha1, ha2, hd1, hd2⟩
  · unfold pick_candidate_keys
    rcases hp : columns.find? (fun c => pedidoAliases.contains (py_lower c)) with _ | p <;>
      rcases hc : columns.find? (fun c => clienteAliases.contains (py_lower c)) with _ | a <;>
      rcases hd : columns.find? (fun c => dataAliases.contains (py_lower c)) with _ | d <;>
      simp
  · intro hped hcli
    unfold pick_candidate_keys
    rcases hp : columns.find? (fun c => pedidoAliases.contains (py_lower c)) with _ | p
    · rcases hc : columns.find? (fun c => clienteAliases.contains (py_lower c)) with _ | a
      · simp
      · obtain ⟨ha1, ha2⟩ := find?_alias_some _ _ _ hc
        exact absurd ⟨a, ha1, ha2⟩ hcli
    · obtain ⟨hp1, hp2⟩ := find?_alias_some _ _ _ hp
      exact absurd ⟨p, hp1, hp2⟩ hped

/-- C3 witness: on `["Order_ID", "cliente_id", "data"]` the order-id key is the
single column `Order_ID`, and the customer+date key is `cliente_id, data`. -/
theorem pick_candidate_keys_spec_witness :
    (∃ p, ["Order_ID"] = [p] ∧ p ∈ ["Order_ID", "cliente_id", "data"] ∧
      py_lower p ∈ pedidoAliases) ∧
    (∃ ic d, ["cliente_id", "data"] = [ic, d] ∧ ic ∈ ["Order_ID", "cliente_id", "data"] ∧
      py_lower ic ∈ clienteAliases ∧ d ∈ ["Order_ID", "cliente_id", "data"] ∧
      py_lower d ∈ dataAliases) := by
  have h := pick_candidate_keys_spec ["Order_ID", "cliente_id", "data"]
  exact ⟨h.2.1 ["Order_ID"] (by decide), h.2.2.2.1 ["cliente_id", "data"] (by decide)⟩

/-- The claim's counting of duplicates: the number of row positions whose
`key`-projection equals the projection of some strictly earlier row. -/
def spec_dup_count {κ : Type} [DecidableEq κ] (key : List Cell → κ)
    (rows : List (List Cell)) : Nat :=
  (List.range rows.length).countP
    (fun i => decide (∃ j, j < i ∧ key (rows.getD j []) = key (rows.getD i [])))

theorem dup_count_eq_spec {κ : Type} [DecidableEq κ] (key : List Cell → κ)
    (rows : List (List Cell)) :
    dup_count key rows = spec_dup_count key rows := by
  unfold dup_count spec_dup_count
  refine List.countP_congr fun i hmem => ?_
  rw [List.mem_range] at hmem
  simp only [decide_eq_true_eq]
  constructor
  · intro hm
    obtain ⟨r, hr, hkey⟩ := List.mem_map.mp hm
    obtain ⟨j, hj, hrj⟩ := List.mem_take_iff_getElem.mp hr
    have hji : j < i := lt_of_lt_of_le hj (min_le_left _ _)
    have hjlen : j < rows.length := lt_of_lt_of_le hj (min_le_right _ _)
    refine ⟨j, hji, ?_⟩
    rw [List.getD_eq_getElem rows [] hjlen, hrj, hkey]
  · rintro ⟨j, hji, hkey⟩
    have hjlen : j < rows.length := hji.trans hmem
    refine List.mem_map.mpr ⟨rows[j], ?_, ?_⟩
    · exact List.mem_take_iff_getElem.mpr ⟨j, lt_min hji hjlen, rfl⟩
    · rw [← List.getD_eq_getElem rows [] hjlen, hkey, List.getD_eq_getElem rows [] hmem]

theorem dup_count_full_le {κ : Type} [DecidableEq κ] (key : List Cell → κ)
    (rows : List (List Cell)) :
    dup_count (fun r => r) rows ≤ dup_count key rows := by
  unfold dup_count
  refine List.countP_mono_left fun i hi => ?_
  simp only [decide_eq_true_eq, List.map_id_fun', id_eq]
  intro hmem
  exact List.mem_map.mpr ⟨rows.getD i [], hmem, rfl⟩

theorem dup_info_lookup_full (keys : List (String × List String)) (df : Frame) :
    (dup_info_of keys df).lookup "dup_full_row_count" =
      some (dup_count (fun r => r) df.rows) := by
  rw [dup_info_of, List.lookup_cons, beq_self_eq_true]

theorem lookup_keyEntries_eq_some (df : Frame) (keys : List (String × List String))
    (k : String) (n : Nat)
    (h : (keys.filterMap (fun kc =>
        if kc.2.all (fun c => df.columns.contains c) then
          some (kc.1, dup_count (projectRow df.columns kc.2) df.rows)
        else none)).lookup k = some n) :
    ∃ kcols, (k, kcols) ∈ keys ∧ kcols.all (fun c => df.columns.contains c) = true ∧
      n = dup_count (projectRow df.columns kcols) df.rows := by
  induction keys with
  | nil => simp at h
  | cons kc keys ih =>
    rw [List.filterMap_cons] at h
    by_cases hall : kc.2.all (fun c => df.columns.contains c) = true
    · rw [if_pos hall, List.lookup_cons] at h
      by_cases hk : k = kc.1
      · rw [show (k == kc.1) = true from beq_iff_eq.mpr hk] at h
        exact ⟨kc.2, by rw [hk]; exact List.mem_cons_self _ _, hall,
          (Option.some.injEq _ _ ▸ h).symm⟩
      · rw [beq_eq_false_iff_ne.mpr hk] at h
        obtain ⟨kcols, hm, ha, hn⟩ := ih h
        exact ⟨kcols, List.mem_cons_of_mem _ hm, ha, hn⟩
    · rw [if_neg hall] at h
      obtain ⟨kcols, hm, ha, hn⟩ := ih h
      exact ⟨kcols, List.mem_cons_of_mem _ hm, ha, hn⟩

theorem lookup_keyEntries_isSome (df : Frame) (keys : List (String × List String))
    (k : String) (kcols : List String)
    (hmem : (k, kcols) ∈ keys) (hall : kcols.all (fun c => df.columns.contains c) = true) :
    ((keys.filterMap (fun kc =>
        if kc.2.all (fun c => df.columns.contains c) then
          some (kc.1, dup_count (projectRow df.columns kc.2) df.rows)
        else none)).lookup k).isSome := by
  induction keys with
  | nil => simp at hmem
  | cons kc keys ih =>
    rw [List.filterMap_cons]
    rcases List.mem_cons.mp hmem with hhd | htl
    · have hk : kc = (k, kcols) := hhd.symm
      subst hk
      rw [if_pos hall, List.lookup_cons, beq_self_eq_true]
      rfl
    · by_cases hguard : kc.2.all (fun c => df.columns.contains c) = true
      · rw [if_pos hguard, List.lookup_cons]
        by_cases hk : k = kc.1
        · rw [show (k == kc.1) = true from beq_iff_eq.mpr hk]
          rfl
        · rw [beq_eq_false_iff_ne.mpr hk]
          exact ih htl
      · rw [if_neg hguard]
        exact ih htl

theorem process_file_ok_eq (rc : List String) (ks : List (String × List String))
    (f : XFile) (df : Frame) (hload : f.load = Except.ok df) :
    process_file rc ks f = .ok
      ({ file := f.name
         path := f.path
         profile := basic_profile df
         duplicates := dup_info_of ks df
         schema_matches_reference := decide (normalize_cols df.columns = rc) },
       if normalize_cols df.columns = rc then none
       else some { file := f.name
                   missing_cols := missing_of rc (normalize_cols df.columns)
                   extra_cols := extra_of rc (normalize_cols df.columns)
                   order_diff_only := order_diff_of rc (normalize_cols df.columns) }) := by
  simp only [process_file, hload]

theorem pick_mem_label (columns : List String) (k : String) (l : List String)
    (h : (k, l) ∈ pick_candidate_keys columns) :
    k = "dup_order_id" ∨ k = "dup_cliente_data" := by
  rcases hp : columns.find? (fun c => pedidoAliases.contains (py_lower c)) with _ | p <;>
    rcases hc : columns.find? (fun c => clienteAliases.contains (py_lower c)) with _ | a <;>
    rcases hd : columns.find? (fun c => dataAliases.contains (py_lower c)) with _ | d <;>
    simp only [pick_candidate_keys, hp, hc, hd, List.nil_append, List.append_nil,
      List.cons_append, List.mem_append, List.mem_singleton, List.mem_cons,
      List.not_mem_nil, or_false, false_or, Prod.mk.injEq] at h <;>
    tauto

theorem pick_order_entry (columns : List String) (l : List String)
    (h : ("dup_order_id", l) ∈ pick_candidate_keys columns) :
    ∃ p, columns.find? (fun c => pedidoAliases.contains (py_lower c)) = some p ∧
      l = [p] := by
  rcases hp : columns.find? (fun c => pedidoAliases.contains (py_lower c)) with _ | p <;>
    rcases hc : columns.find? (fun c => clienteAliases.contains (py_lower c)) with _ | a <;>
    rcases hd : columns.find? (fun c => dataAliases.contains (py_lower c)) with _ | d <;>
    (simp only [pick_candidate_keys] at h; rw [hp, hc, hd] at h; simp at h) <;>
    exact ⟨p, rfl, h⟩

theorem pick_cliente_data_entry (columns : List String) (l : List String)
    (h : ("dup_cliente_data", l) ∈ pick_candidate_keys columns) :
    ∃ a d, columns.find? (fun c => clienteAliases.contains (py_lower c)) = some a ∧
      columns.find? (fun c => dataAliases.contains (py_lower c)) = some d ∧
      l = [a, d] := by
  rcases hp : columns.find? (fun c => pedidoAliases.contains (py_lower c)) with _ | p <;>
    rcases hc : columns.find? (fun c => clienteAliases.contains (py_lower c)) with _ | a <;>
    rcases hd : columns.find? (fun c => dataAliases.contains (py_lower c)) with _ | d <;>
    (simp only [pick_candidate_keys] at h; rw [hp, hc, hd] at h; simp at h) <;>
    exact ⟨a, d, rfl, rfl, h⟩

theorem pick_label_unique (columns : List String) (k : String) (l1 l2 : List String)
    (h1 : (k, l1) ∈ pick_candidate_keys columns)
    (h2 : (k, l2) ∈ pick_candidate_keys columns) : l1 = l2 := by
  rcases pick_mem_label columns k l1 h1 with hk | hk <;> subst hk
  · obtain ⟨p1, hf1, hl1⟩ := pick_order_entry columns l1 h1
    obtain ⟨p2, hf2, hl2⟩ := pick_order_entry columns l2 h2
    rw [hl1, hl2, Option.some_inj.mp (hf1.symm.trans hf2)]
  · obtain ⟨a1, d1, hc1, hd1, hl1⟩ := pick_cliente_data_entry columns l1 h1
    obtain ⟨a2, d2, hc2, hd2, hl2⟩ := pick_cliente_data_entry columns l2 h2
    rw [hl1, hl2, Option.some_inj.mp (hc1.symm.trans hc2),
      Option.some_inj.mp (hd1.symm.trans hd2)]

/-- C4: for a loaded file, the recorded full-row duplicate count is the number
of rows fully equal to some earlier row, and every candidate-key entry present
records the number of rows equal to some earlier row on exactly that key's
columns (first occurrences are never counted, later ones always are). -/
theorem duplicates_counts_correct
    (rc : List String) (f : XFile) (df : Frame) (fr : FileResult)
    (m : Option SchemaMismatch)
    (hload : f.load = Except.ok df)
    (hpf : process_file rc (pick_candidate_keys rc) f = .ok (fr, m)) :
    fr.duplicates.lookup "dup_full_row_count" =
      some (spec_dup_count (fun r => r) df.rows) ∧
    ∀ k n, fr.duplicates.lookup k = some n → k ≠ "dup_full_row_count" →
      ∃ kcols, (k, kcols) ∈ pick_candidate_keys rc ∧
        n = spec_dup_count (projectRow df.columns kcols) df.rows := by
  rw [process_file_ok_eq rc _ f df hload] at hpf
  simp only [Except.ok.injEq, Prod.mk.injEq] at hpf
  obtain ⟨hfr, -⟩ := hpf
  have hdup : fr.duplicates = dup_info_of (pick_candidate_keys rc) df := by rw [← hfr]
  constructor
  · rw [hdup, dup_info_lookup_full, dup_count_eq_spec]
  · intro k n hk hne
    rw [hdup, dup_info_of, List.lookup_cons, beq_eq_false_iff_ne.mpr hne] at hk
    obtain ⟨kcols, hmem, hall, hn⟩ := lookup_keyEntries_eq_some df _ k n hk
    exact ⟨kcols, hmem, by rw [hn, dup_count_eq_spec]⟩

/-- C4 witness: on the reference sheet the full-row entry records exactly the
spec count (one fully repeated row). -/
theorem duplicates_counts_correct_witness :
    ([("dup_full_row_count", 1), ("dup_order_id", 2), ("dup_cliente_data", 1)]
        : List (String × Nat)).lookup "dup_full_row_count" =
      some (spec_dup_count (fun r => r) refFrame.rows) := by
  have h := duplicates_counts_correct (normalize_cols refFrame.columns) refXFile refFrame
    { file := "2023-01.xlsx", path := "p1"
      profile := { rows := 3, cols := 3, total_nulls := 0, top_nulls := [] }
      duplicates := [("dup_full_row_count", 1), ("dup_order_id", 2),
        ("dup_cliente_data", 1)]
      schema_matches_reference := true } none rfl (by decide)
  exact h.1

/-- C10: whenever a candidate-key entry is present next to the full-row entry,
the full-row duplicate count cannot exceed the key's duplicate count. -/
theorem full_row_le_key_count
    (rc : List String) (f : XFile) (df : Frame) (fr : FileResult)
    (m : Option SchemaMismatch)
    (hload : f.load = Except.ok df)
    (hpf : process_file rc (pick_candidate_keys rc) f = .ok (fr, m))
    (k : String) (n fc : Nat)
    (hk : fr.duplicates.lookup k = some n) (hne : k ≠ "dup_full_row_count")
    (hfc : fr.duplicates.lookup "dup_full_row_count" = some fc) :
    fc ≤ n := by
  rw [process_file_ok_eq rc _ f df hload] at hpf
  simp only [Except.ok.injEq, Prod.mk.injEq] at hpf
  obtain ⟨hfr, -⟩ := hpf
  have hdup : fr.duplicates = dup_info_of (pick_candidate_keys rc) df := by rw [← hfr]
  rw [hdup, dup_info_lookup_full] at hfc
  have hfc' : fc = dup_count (fun r => r) df.rows := (Option.some_inj.mp hfc).symm
  rw [hdup, dup_info_of, List.lookup_cons, beq_eq_false_iff_ne.mpr hne] at hk
  obtain ⟨kcols, hmem, hall, hn⟩ := lookup_keyEntries_eq_some df _ k n hk
  rw [hfc', hn]
  exact dup_count_full_le _ _

/-- C10 witness: on the reference sheet, one full-row duplicate against two
order-id duplicates. -/
theorem full_row_le_key_count_witness :
    dup_count (fun r => r) refFrame.rows ≤
      dup_count (projectRow refFrame.columns ["order_id"]) refFrame.rows := by
  refine full_row_le_key_count (normalize_cols refFrame.columns) refXFile refFrame
    { file := "2023-01.xlsx", path := "p1"
      profile := { rows := 3, cols := 3, total_nulls := 0, top_nulls := [] }
      duplicates := [("dup_full_row_count", 1), ("dup_order_id", 2),
        ("dup_cliente_data", 1)]
      schema_matches_reference := true } none rfl (by decide)
    "dup_order_id" (dup_count (projectRow refFrame.columns ["order_id"]) refFrame.rows)
    (dup_count (fun r => r) refFrame.rows) (by decide) (by decide) (by decide)

/-- C5 (amended): for a loaded file, a candidate-key entry is present in the
duplicates mapping exactly when every column of the key occurs in the file's
raw, as-loaded (pre-normalization) column list — when one is absent the label
is omitted, never zero-filled — while the full-row entry is always present. -/
theorem dup_key_entry_iff
    (rc : List String) (f : XFile) (df : Frame) (fr : FileResult)
    (m : Option SchemaMismatch)
    (hload : f.load = Except.ok df)
    (hpf : process_file rc (pick_candidate_keys rc) f = .ok (fr, m))
    (k : String) (kcols : List String)
    (hmem : (k, kcols) ∈ pick_candidate_keys rc) :
    ((fr.duplicates.lookup k).isSome ↔ ∀ c ∈ kcols, c ∈ df.columns) ∧
    (fr.duplicates.lookup "dup_full_row_count").isSome := by
  rw [process_file_ok_eq rc _ f df hload] at hpf
  simp only [Except.ok.injEq, Prod.mk.injEq] at hpf
  obtain ⟨hfr, -⟩ := hpf
  have hdup : fr.duplicates = dup_info_of (pick_candidate_keys rc) df := by rw [← hfr]
  have hne : k ≠ "dup_full_row_count" := by
    rcases pick_mem_label rc k kcols hmem with hk | hk <;> rw [hk] <;> decide
  constructor
  · rw [hdup, dup_info_of, List.lookup_cons, beq_eq_false_iff_ne.mpr hne]
    constructor
    · intro hs
      obtain ⟨n, hn⟩ := Option.isSome_iff_exists.mp hs
      obtain ⟨kcols2, hmem2, hall2, -⟩ := lookup_keyEntries_eq_some df _ k n hn
      have heq : kcols2 = kcols := pick_label_unique rc k kcols2 kcols hmem2 hmem
      subst heq
      intro c hc
      have := List.all_eq_true.mp hall2 c hc
      simpa using this
    · intro hall
      apply lookup_keyEntries_isSome df _ k kcols hmem
      rw [List.all_eq_true]
      intro c hc
      simpa using hall c hc
  · rw [hdup, dup_info_lookup_full]
    rfl

/-- C5 witness: on the reference sheet both keys' columns are raw-present and
both entries exist alongside the full-row entry. -/
theorem dup_key_entry_iff_witness :
    (([("dup_full_row_count", 1), ("dup_order_id", 2), ("dup_cliente_data", 1)]
        : List (String × Nat)).lookup "dup_order_id").isSome = true ∧
    "order_id" ∈ refFrame.columns := by
  have h := dup_key_entry_iff (normalize_cols refFrame.columns) refXFile refFrame
    { file := "2023-01.xlsx", path := "p1"
      profile := { rows := 3, cols := 3, total_nulls := 0, top_nulls := [] }
      duplicates := [("dup_full_row_count", 1), ("dup_order_id", 2),
        ("dup_cliente_data", 1)]
      schema_matches_reference := true } none rfl (by decide)
    "dup_order_id" ["order_id"] (by decide)
  exact ⟨h.1.mpr (by decide), by decide⟩

/-- A sheet whose raw column name carries a leading space: its normalized
column set equals `["order_id"]`, its raw column list does not contain
`"order_id"`. -/
def paddedFrame : Frame := { columns := [" order_id"], rows := [] }

/-- The file carrying `paddedFrame`. -/
def paddedXFile : XFile :=
  { name := "2023-02.xlsx", stem := "2023-02", path := "p5", load := .ok paddedFrame }

/-- C5 counterexample: in the batch `[refXFile, paddedXFile]` the candidate
order-id key `["order_id"]` is derived from the reference, `"order_id"` is in
`paddedXFile`'s (normalized) column set, yet its duplicates mapping has no
`dup_order_id` entry — presence is decided on the raw column list, so the
claim's "present in the file's column set" (§3: normalized) fails. -/
theorem dup_key_entry_counterexample :
    ("dup_order_id", ["order_id"]) ∈
      pick_candidate_keys (normalize_cols refFrame.columns) ∧
    "order_id" ∈ normalize_cols paddedFrame.columns ∧
    (batchOf (validate_year 2023 "base" [refXFile, paddedXFile] false)).map
        (fun b => b.files.map (fun fr => (fr.duplicates.lookup "dup_order_id").isSome)) =
      some [true, false] := by
  exact ⟨by decide, by decide, by decide⟩

/-- C6: a loaded file whose normalized columns are a permutation of the
reference's but differ in order yields a mismatch record with
`order_diff_only = true` and empty missing/extra lists. -/
theorem order_only_mismatch
    (rc : List String) (ks : List (String × List String)) (f : XFile) (df : Frame)
    (fr : FileResult) (m : Option SchemaMismatch)
    (hload : f.load = Except.ok df)
    (hperm : (normalize_cols df.columns).Perm rc)
    (hne : normalize_cols df.columns ≠ rc)
    (hpf : process_file rc ks f = .ok (fr, m)) :
    m = some { file := f.name, missing_cols := [], extra_cols := [],
               order_diff_only := true } := by
  rw [process_file_ok_eq rc ks f df hload] at hpf
  simp only [Except.ok.injEq, Prod.mk.injEq] at hpf
  obtain ⟨-, hm⟩ := hpf
  have h1 : missing_of rc (normalize_cols df.columns) = [] := by
    rw [missing_of, List.filter_eq_nil_iff]
    intro c hc
    have : c ∈ normalize_cols df.columns := hperm.mem_iff.mpr hc
    simp [this]
  have h2 : extra_of rc (normalize_cols df.columns) = [] := by
    rw [extra_of, List.filter_eq_nil_iff]
    intro c hc
    have : c ∈ rc := hperm.mem_iff.mp hc
    simp [this]
  have h3 : order_diff_of rc (normalize_cols df.columns) = true := by
    rw [order_diff_of]
    simp [List.isPerm_iff, hperm, hne]
  rw [← hm, if_neg hne, h1, h2, h3]

/-- C6 witness: the column-reordered sheet produces exactly the
order-only mismatch record. -/
theorem order_only_mismatch_witness :
    (some { file := "2023-02.xlsx", missing_cols := [], extra_cols := [],
            order_diff_only := true } : Option SchemaMismatch) =
      some { file := "2023-02.xlsx", missing_cols := [], extra_cols := [],
             order_diff_only := true } := by
  refine order_only_mismatch (normalize_cols refFrame.columns)
    (pick_candidate_keys (normalize_cols refFrame.columns)) permXFile permFrame
    { file := "2023-02.xlsx", path := "p3"
      profile := { rows := 0, cols := 3, total_nulls := 0, top_nulls := [] }
      duplicates := [("dup_full_row_count", 0), ("dup_order_id", 0),
        ("dup_cliente_data", 0)]
      schema_matches_reference := false }
    (some { file := "2023-02.xlsx", missing_cols := [], extra_cols := [],
            order_diff_only := true })
    rfl (List.isPerm_iff.mp (by decide)) (by decide) (by decide)

/-- C7: schema comparison is reflexive — a file whose normalized columns equal
the reference's yields no mismatch record, is marked as matching, and the
missing/extra/order-only fields computed at equal column lists are
empty/empty/false. -/
theorem schema_comparison_reflexive
    (rc : List String) (ks : List (String × List String)) (f : XFile) (df : Frame)
    (fr : FileResult) (m : Option SchemaMismatch)
    (hload : f.load = Except.ok df)
    (hcols : normalize_cols df.columns = rc)
    (hpf : process_file rc ks f = .ok (fr, m)) :
    m = none ∧ fr.schema_matches_reference = true ∧
    missing_of rc rc = [] ∧ extra_of rc rc = [] ∧ order_diff_of rc rc = false := by
  rw [process_file_ok_eq rc ks f df hload] at hpf
  simp only [Except.ok.injEq, Prod.mk.injEq] at hpf
  obtain ⟨hfr, hm⟩ := hpf
  refine ⟨by rw [← hm, if_pos hcols], ?_, ?_, ?_, ?_⟩
  · rw [← hfr]
    simp [hcols]
  · rw [missing_of, List.filter_eq_nil_iff]
    intro c hc
    simp [hc]
  · rw [extra_of, List.filter_eq_nil_iff]
    intro c hc
    simp [hc]
  · rw [order_diff_of]
    simp

/-- C7 witness: the reference file compared against its own columns. -/
theorem schema_comparison_reflexive_witness :
    missing_of (normalize_cols refFrame.columns) (normalize_cols refFrame.columns) = [] ∧
    order_diff_of (normalize_cols refFrame.columns) (normalize_cols refFrame.columns) =
      false := by
  have h := schema_comparison_reflexive (normalize_cols refFrame.columns)
    (pick_candidate_keys (normalize_cols refFrame.columns)) refXFile refFrame
    { file := "2023-01.xlsx", path := "p1"
      profile := { rows := 3, cols := 3, total_nulls := 0, top_nulls := [] }
      duplicates := [("dup_full_row_count", 1), ("dup_order_id", 2),
        ("dup_cliente_data", 1)]
      schema_matches_reference := true } none rfl rfl (by decide)
  exact ⟨h.2.2.1, h.2.2.2.2⟩

/-- C8: an empty discovery result yields the `no_files` payload, whose
constructor carries only the year, the status `no_files`, and a message naming
the searched directory; no reference load, key inference, profiling,
comparison or duplicate output exists in it (`Report.noFiles` has no such
fields). -/
theorem validate_year_no_files (year : Nat) (base : String) (strict : Bool) :
    validate_year year base [] strict =
      .ok (.noFiles year "no_files" ("Nenhum .xlsx encontrado em " ++ base)) := rfl

/-- A file whose stem violates the `YYYY-MM` pattern but loads fine. -/
def oddXFile : XFile :=
  { name := "odd.xlsx", stem := "odd", path := "p4", load := .ok refFrame }

/-- C9: with strict naming on, a file with a violating base name is recorded
in `name_issues` yet processed identically to conforming files: the
`files`/`schema_mismatches`/`read_errors` lists equal those of the
strict-naming-off run, and if the file loads, its fully processed entry
(profile, duplicate counts, schema comparison) is in `files`. -/
theorem name_issue_still_processed
    (year : Nat) (base : String) (f0 : XFile) (rest : List XFile) (ref_df : Frame)
    (f : XFile) (b b' : BatchReport)
    (h0 : f0.load = Except.ok ref_df)
    (hmem : f ∈ f0 :: rest)
    (hbad : goodName year f = false)
    (h : validate_year year base (f0 :: rest) true = .ok (.full b))
    (h' : validate_year year base (f0 :: rest) false = .ok (.full b')) :
    f.name ∈ b.name_issues ∧
    b.files = b'.files ∧ b.schema_mismatches = b'.schema_mismatches ∧
    b.read_errors = b'.read_errors ∧
    (∀ df, f.load = Except.ok df → ∃ fr ∈ b.files, ∃ mo,
      process_file (normalize_cols ref_df.columns)
        (pick_candidate_keys (normalize_cols ref_df.columns)) f = .ok (fr, mo)) := by
  rw [validate_year_cons year base f0 rest true ref_df h0] at h
  rw [validate_year_cons year base f0 rest false ref_df h0] at h'
  simp only [Except.ok.injEq, Report.full.injEq] at h h'
  subst h
  subst h'
  refine ⟨?_, rfl, rfl, rfl, ?_⟩
  · rw [mkBatch_name_issues]
    have hni : name_issues_of year true (f0 :: rest) =
        ((f0 :: rest).filter (fun g => !goodName year g)).map XFile.name := rfl
    rw [hni]
    exact List.mem_map.mpr ⟨f, List.mem_filter.mpr ⟨hmem, by simp [hbad]⟩, rfl⟩
  · intro df hdf
    rw [mkBatch_files, resultsOf_map]
    refine ⟨{ file := f.name
              path := f.path
              profile := basic_profile df
              duplicates := dup_info_of
                (pick_candidate_keys (normalize_cols ref_df.columns)) df
              schema_matches_reference :=
                decide (normalize_cols df.columns = normalize_cols ref_df.columns) },
            List.mem_filterMap.mpr ⟨f, hmem, by simp [hdf]⟩,
            (if normalize_cols df.columns = normalize_cols ref_df.columns then none
             else some { file := f.name
                         missing_cols := missing_of (normalize_cols ref_df.columns)
                           (normalize_cols df.columns)
                         extra_cols := extra_of (normalize_cols ref_df.columns)
                           (normalize_cols df.columns)
                         order_diff_only := order_diff_of (normalize_cols ref_df.columns)
                           (normalize_cols df.columns) }),
            process_file_ok_eq _ _ f df hdf⟩

/-- C9 witness: the ill-named but readable file is flagged yet still lands in
the `files` list of the strict run. -/
theorem name_issue_still_processed_witness :
    "odd.xlsx" ∈ (mkBatch 2023 "base" [refXFile, oddXFile] true refFrame).name_issues ∧
    (mkBatch 2023 "base" [refXFile, oddXFile] true refFrame).files =
      (mkBatch 2023 "base" [refXFile, oddXFile] false refFrame).files := by
  have h := name_issue_still_processed 2023 "base" refXFile [oddXFile] refFrame oddXFile
    (mkBatch 2023 "base" [refXFile, oddXFile] true refFrame)
    (mkBatch 2023 "base" [refXFile, oddXFile] false refFrame)
    rfl (by simp) (by decide) rfl rfl
  exact ⟨h.1, h.2.1⟩
